import Mathlib

/-
Verification of the theme-preference logic of the Personal_Website
repository.  The code under scrutiny consists of:

  * `src/website/app/layout.tsx` — a pre-hydration inline script that
    resolves the persisted theme preference (cookie, then localStorage)
    and applies a `theme-...` class to the document root before paint;
  * `src/unnamed/part_001` — the ThemeProvider supporting a third
    "default" theme (`Provider1` below), with `toggleMode`,
    `toggleVariant`, `toggleDefault`, a persist effect and an
    `applyClass` effect;
  * `src/unnamed/part_002` — the earlier ThemeProvider without the
    default theme (`Provider2` below).

Browser inputs are modelled explicitly: `storageRaw` is the value of
`localStorage.getItem("site-theme")`; `cookieRaw` is the URI-decoded
value of the `site-theme` cookie when present (the `document.cookie`
scanning and `decodeURIComponent` of the source are folded into this
input); `osDark` is the `matchMedia('(prefers-color-scheme: dark)')`
result (`none` when the API is unavailable or throws); `hour` is
`new Date().getHours()`; `rootClasses` is `document.documentElement.classList`,
modelled as a list of class names.
-/

/-- The record shape this program serializes and parses:
`JSON.stringify({mode, variant})` or `JSON.stringify({mode: 'default'})`.
Fields are optional strings, matching the untyped runtime values. -/
structure ThemeRecord where
  mode : Option String
  variant : Option String
deriving Repr, DecidableEq

def quoteChar : Char := Char.ofNat 34

def backslashChar : Char := Char.ofNat 92

def openBrace : Char := Char.ofNat 123

def closeBrace : Char := Char.ofNat 125

/-- Scan the body of a JSON string literal up to its closing quote.
Escape sequences (a backslash) are outside the modelled fragment and
fail the parse. Returns the content and the remainder after the quote. -/
def scanStringBody : List Char → Option (List Char × List Char)
  | [] => none
  | c :: rest =>
    if c = quoteChar then some ([], rest)
    else if c = backslashChar then none
    else
      match scanStringBody rest with
      | some (content, rem) => some (c :: content, rem)
      | none => none

/-- Scan a JSON string literal `"..."` at the head of the input. -/
def scanStringLit : List Char → Option (List Char × List Char)
  | [] => none
  | c :: rest => if c = quoteChar then scanStringBody rest else none

/-- Scan one `"key":"value"` pair at the head of the input. -/
def scanKeyVal (l : List Char) : Option (List Char × List Char × List Char) :=
  match scanStringLit l with
  | none => none
  | some (key, r1) =>
    match r1 with
    | [] => none
    | c :: r2 =>
      if c = ':' then
        match scanStringLit r2 with
        | some (val, r3) => some (key, val, r3)
        | none => none
      else none

/-- Look a key up among the scanned fields; a later duplicate key wins,
as it does for `JSON.parse`. -/
def fieldLookup (key : List Char) (fs : List (List Char × List Char)) : Option (List Char) :=
  match fs with
  | [] => none
  | (k, v) :: rest =>
    match fieldLookup key rest with
    | some r => some r
    | none => if k = key then some v else none

/-- Build the record `JSON.parse` would return, keeping only the two
fields the program ever reads. -/
def recordOfFields (fs : List (List Char × List Char)) : ThemeRecord :=
  { mode := (fieldLookup "mode".data fs).map String.mk,
    variant := (fieldLookup "variant".data fs).map String.mk }

/-- Scan the part of a flat JSON object after the opening brace: an
empty body, one field or two fields, then the closing brace and the end
of the input. -/
def parseObjRest (rest : List Char) : Option ThemeRecord :=
  if rest = [closeBrace] then some (recordOfFields [])
  else
    match scanKeyVal rest with
    | none => none
    | some (k1, v1, r1) =>
      if r1 = [closeBrace] then some (recordOfFields [(k1, v1)])
      else
        match r1 with
        | [] => none
        | c :: r =>
          if c = ',' then
            match scanKeyVal r with
            | none => none
            | some (k2, v2, r2) =>
              if r2 = [closeBrace] then some (recordOfFields [(k1, v1), (k2, v2)])
              else none
          else none

/-- `JSON.parse` restricted to the fragment this program exchanges: a
flat object with at most two quoted string fields, no escapes and no
whitespace (exactly what `JSON.stringify` emits for these records).
Every other string is modelled as a parse failure, which the callers
treat the same way as a caught exception. -/
def parseRecordList (l : List Char) : Option ThemeRecord :=
  match l with
  | [] => none
  | c :: rest => if c = openBrace then parseObjRest rest else none

def parseRecord (s : String) : Option ThemeRecord :=
  parseRecordList s.data

/-- `JSON.stringify({mode, variant})` for string-valued fields. -/
def serializeModeVariant (m v : String) : String :=
  String.mk (openBrace :: quoteChar ::
    ("mode".data ++ quoteChar :: ':' :: quoteChar ::
      (m.data ++ quoteChar :: ',' :: quoteChar ::
        ("variant".data ++ quoteChar :: ':' :: quoteChar ::
          (v.data ++ quoteChar :: closeBrace :: [])))))

/-- `JSON.stringify({mode: 'default'})`. -/
def serializeDefault : String :=
  String.mk (openBrace :: quoteChar ::
    ("mode".data ++ quoteChar :: ':' :: quoteChar ::
      ("default".data ++ quoteChar :: closeBrace :: [])))

/-- The browser inputs a page load supplies to the resolution logic. -/
structure Env where
  storageRaw : Option String
  cookieRaw : Option String
  osDark : Option Bool
  hour : Nat
  rootClasses : List String
deriving Repr, DecidableEq

/-- `readStored` of both ThemeProviders: `JSON.parse` of the
localStorage value, any failure yielding `null`. -/
def readStored (e : Env) : Option ThemeRecord :=
  match e.storageRaw with
  | some raw => parseRecord raw
  | none => none

/-- `readCookie` of both ThemeProviders: the decoded `site-theme` cookie
value parsed as JSON, any failure yielding `null`. -/
def readCookie (e : Env) : Option ThemeRecord :=
  match e.cookieRaw with
  | some raw => parseRecord raw
  | none => none

def DAY_START : Nat := 6

def DAY_END : Nat := 19

/-- `hour >= DAY_START && hour < DAY_END ? "day" : "night"`. -/
def hourMode (hour : Nat) : String :=
  if DAY_START ≤ hour ∧ hour < DAY_END then "day" else "night"

/-- The OS fallback of the variant initializers: `'dark'` when
`window.matchMedia` is available and matches, else `'light'`. -/
def osVariant (osDark : Option Bool) : String :=
  match osDark with
  | some true => "dark"
  | _ => "light"

namespace Provider1

/-- Guard `stored && stored.mode && stored.mode !== 'default'` of the
`mode` initializer of part_001 (a JS string is truthy iff nonempty). -/
def pickMode (r : Option ThemeRecord) : Option String :=
  match r with
  | none => none
  | some rec =>
    match rec.mode with
    | none => none
    | some m => if m = "" ∨ m = "default" then none else some m

/-- Guard `stored && stored.variant && stored.mode !== 'default'` of the
`variant` initializer of part_001. -/
def pickVariant (r : Option ThemeRecord) : Option String :=
  match r with
  | none => none
  | some rec =>
    match rec.variant with
    | none => none
    | some v =>
      if v = "" then none
      else if rec.mode = some "default" then none
      else some v

/-- The `mode` useState initializer of part_001: localStorage, then the
cookie, then the local hour. -/
def initMode (e : Env) : String :=
  match pickMode (readStored e) with
  | some m => m
  | none =>
    match pickMode (readCookie e) with
    | some m => m
    | none => hourMode e.hour

/-- The `variant` useState initializer of part_001: localStorage, then
the cookie, then the OS preference, else `'light'`. -/
def initVariant (e : Env) : String :=
  match pickVariant (readStored e) with
  | some v => v
  | none =>
    match pickVariant (readCookie e) with
    | some v => v
    | none => osVariant e.osDark

/-- The `isDefault` useState initializer of part_001: a stored or cookie
record with `mode === 'default'`, or a pre-hydration `theme-default`
class already on the document root. -/
def initIsDefault (e : Env) : Bool :=
  (match readStored e with
   | some r => r.mode == some "default"
   | none => false) ||
  (match readCookie e with
   | some r => r.mode == some "default"
   | none => false) ||
  e.rootClasses.contains "theme-default"

/-- The controller state of part_001: the three useState slots and the
`prevRef` snapshot. -/
structure State where
  mode : String
  variant : String
  isDefault : Bool
  prevRef : Option (String × String)
deriving Repr, DecidableEq

def initState (e : Env) : State :=
  { mode := initMode e
    variant := initVariant e
    isDefault := initIsDefault e
    prevRef := none }

/-- `toggleMode` of part_001: no-op while `isDefault`, else flip. -/
def toggleMode (s : State) : State :=
  if s.isDefault then s
  else { s with mode := if s.mode = "day" then "night" else "day" }

/-- `toggleVariant` of part_001: no-op while `isDefault`, else flip. -/
def toggleVariant (s : State) : State :=
  if s.isDefault then s
  else { s with variant := if s.variant = "light" then "dark" else "light" }

/-- `toggleDefault` of part_001: entering default snapshots
`{mode, variant}` in `prevRef`; leaving restores the snapshot when one
is present and clears it. -/
def toggleDefault (s : State) : State :=
  if !s.isDefault then
    { s with prevRef := some (s.mode, s.variant), isDefault := true }
  else
    match s.prevRef with
    | some (m, v) =>
      { s with mode := m, variant := v, prevRef := none, isDefault := false }
    | none => { s with isDefault := false }

/-- The class the effect of part_001 applies for a given state. -/
def themeClass (s : State) : String :=
  if s.isDefault then "theme-default" else "theme-" ++ s.mode ++ "-" ++ s.variant

/-- `startsWith` of JS strings, used by the class sweep. -/
def strStartsWith (s p : String) : Bool :=
  p.data.isPrefixOf s.data

/-- `applyClass` of part_001: remove every class starting with `theme-`,
then add the class for the current state. -/
def applyClass (s : State) (classes : List String) : List String :=
  (classes.filter (fun c => !(strStartsWith c "theme-"))) ++ [themeClass s]

/-- The payload the persist effect of part_001 writes to both
localStorage and the cookie. -/
def persistPayload (s : State) : String :=
  if s.isDefault then serializeDefault else serializeModeVariant s.mode s.variant

end Provider1

namespace Provider2

/-- Guard `stored && stored.mode` of the `mode` initializer of part_002. -/
def pickMode (r : Option ThemeRecord) : Option String :=
  match r with
  | none => none
  | some rec =>
    match rec.mode with
    | none => none
    | some m => if m = "" then none else some m

/-- Guard `stored && stored.variant` of the `variant` initializer of
part_002. -/
def pickVariant (r : Option ThemeRecord) : Option String :=
  match r with
  | none => none
  | some rec =>
    match rec.variant with
    | none => none
    | some v => if v = "" then none else some v

/-- The `mode` useState initializer of part_002: localStorage, then the
cookie, then the local hour. -/
def initMode (e : Env) : String :=
  match pickMode (readStored e) with
  | some m => m
  | none =>
    match pickMode (readCookie e) with
    | some m => m
    | none => hourMode e.hour

/-- The `variant` useState initializer of part_002: localStorage, then
the cookie, then the OS preference, else `'light'`. -/
def initVariant (e : Env) : String :=
  match pickVariant (readStored e) with
  | some v => v
  | none =>
    match pickVariant (readCookie e) with
    | some v => v
    | none => osVariant e.osDark

/-- `applyClass(m, v)` of part_002: remove every class starting with
`theme-`, then add `theme-<m>-<v>`. -/
def applyClass (m v : String) (classes : List String) : List String :=
  (classes.filter (fun c => !(Provider1.strStartsWith c "theme-")))
    ++ ["theme-" ++ m ++ "-" ++ v]

/-- `toggleMode` of part_002: unconditional flip. -/
def toggleMode (m : String) : String :=
  if m = "day" then "night" else "day"

/-- `toggleVariant` of part_002: unconditional flip. -/
def toggleVariant (v : String) : String :=
  if v = "light" then "dark" else "light"

end Provider2

namespace Prehydration

/-- The cookie branch of the inline script in layout.tsx: parse the
decoded cookie value; apply `theme-<mode>-<variant>` only when both
fields are present and truthy; otherwise fall through. -/
def cookieClass (cookieRaw : Option String) : Option String :=
  match cookieRaw with
  | none => none
  | some raw =>
    match parseRecord raw with
    | none => none
    | some r =>
      match r.mode, r.variant with
      | some m, some v =>
        if m ≠ "" ∧ v ≠ "" then some ("theme-" ++ m ++ "-" ++ v) else none
      | _, _ => none

/-- The localStorage branch of the inline script: a record with
`mode === 'default'` yields the default class; else both fields must be
present and truthy. -/
def storageClass (storageRaw : Option String) : Option String :=
  match storageRaw with
  | none => none
  | some raw =>
    match parseRecord raw with
    | none => none
    | some r =>
      if r.mode == some "default" then some "theme-default"
      else
        match r.mode, r.variant with
        | some m, some v =>
          if m ≠ "" ∧ v ≠ "" then some ("theme-" ++ m ++ "-" ++ v) else none
        | _, _ => none

/-- The inline pre-hydration script of layout.tsx: no-op when the root
already carries any class; else cookie, then storage, then the
`theme-default` fallback. -/
def run (classes : List String) (cookieRaw storageRaw : Option String) : List String :=
  if classes.length ≠ 0 then classes
  else
    match cookieClass cookieRaw with
    | some c => classes ++ [c]
    | none =>
      match storageClass storageRaw with
      | some c => classes ++ [c]
      | none => classes ++ ["theme-default"]

end Prehydration

/-- A full page load of the current site (layout.tsx with the part_001
ThemeProvider): the inline script runs on an empty root class list, then
the controller mounts over the resulting classes and its effect applies
the class for the initial state. -/
def pageLoad (cookieRaw storageRaw : Option String) (osDark : Option Bool) (hour : Nat) :
    List String :=
  let classes1 := Prehydration.run [] cookieRaw storageRaw
  let e : Env :=
    { storageRaw := storageRaw, cookieRaw := cookieRaw, osDark := osDark
      hour := hour, rootClasses := classes1 }
  Provider1.applyClass (Provider1.initState e) classes1

/-- A reload after the persist effect of part_001 ran for state `s`:
both persistence slots hold the persisted payload (the cookie write URI-
encodes and the cookie read decodes, so the decoded value is the
payload), and the root classes are what the inline script derives from
them. -/
def reloadEnv (s : Provider1.State) (osDark : Option Bool) (hour : Nat) : Env :=
  let raw := Provider1.persistPayload s
  { storageRaw := some raw
    cookieRaw := some raw
    osDark := osDark
    hour := hour
    rootClasses := Prehydration.run [] (some raw) (some raw) }

inductive Toggle
  | tMode
  | tVariant
  | tDefault
deriving Repr, DecidableEq

def applyToggle (s : Provider1.State) : Toggle → Provider1.State
  | Toggle.tMode => Provider1.toggleMode s
  | Toggle.tVariant => Provider1.toggleVariant s
  | Toggle.tDefault => Provider1.toggleDefault s

/-- A user session: a sequence of clicks on the three toggles. -/
def runToggles (s : Provider1.State) (ts : List Toggle) : Provider1.State :=
  ts.foldl applyToggle s

/-- Characters that survive the modelled JSON string scanner: no quote,
no backslash. -/
def goodList (l : List Char) : Prop :=
  ∀ c ∈ l, c ≠ quoteChar ∧ c ≠ backslashChar

def goodChars (s : String) : Prop :=
  goodList s.data

/-- Both fields of a record, when present, contain scanner-safe
characters. -/
def goodRecord (r : ThemeRecord) : Prop :=
  (∀ m, r.mode = some m → goodChars m) ∧ (∀ v, r.variant = some v → goodChars v)

instance (l : List Char) : Decidable (goodList l) := by
  unfold goodList; infer_instance

instance (s : String) : Decidable (goodChars s) := by
  unfold goodChars; infer_instance

/-- The invariant every reachable controller state of part_001
satisfies: mode and variant are nonempty, scanner-safe strings, the mode
is not the reserved word `default`, and any snapshot in `prevRef`
satisfies the same conditions. -/
def GoodState (s : Provider1.State) : Prop :=
  goodChars s.mode ∧ s.mode ≠ "" ∧ s.mode ≠ "default" ∧
  goodChars s.variant ∧ s.variant ≠ "" ∧
  (∀ m v, s.prevRef = some (m, v) →
    goodChars m ∧ m ≠ "" ∧ m ≠ "default" ∧ goodChars v ∧ v ≠ "")

/-- The five root classes named by the global stylesheet contract. -/
def cssContract : List String :=
  ["theme-day-light", "theme-day-dark", "theme-night-light", "theme-night-dark",
   "theme-default"]

/-- A page-load input whose storage and cookie both hold valid records
that disagree: storage says night/dark, the cookie says day/light. -/
def claim1Env : Env :=
  { storageRaw := some (serializeModeVariant "night" "dark")
    cookieRaw := some (serializeModeVariant "day" "light")
    osDark := none
    hour := 10
    rootClasses := [] }

/-- A mount with no persisted data and a bare document root. -/
def claim8EnvBare : Env :=
  { storageRaw := none, cookieRaw := none, osDark := none, hour := 10
    rootClasses := [] }

/-- The same mount inputs, but the root already carries the
pre-hydration `theme-default` class. -/
def claim8EnvClassed : Env :=
  { storageRaw := none, cookieRaw := none, osDark := none, hour := 10
    rootClasses := ["theme-default"] }

/-- A mount whose storage record carries mode and variant outside the
documented enumerations. -/
def claim10Env : Env :=
  { storageRaw := some (serializeModeVariant "x" "y")
    cookieRaw := none
    osDark := none
    hour := 10
    rootClasses := [] }

theorem string_mk_data (s : String) : String.mk s.data = s := rfl

theorem scanStringBody_append (s rest : List Char) (h : goodList s) :
    scanStringBody (s ++ quoteChar :: rest) = some (s, rest) := by
  induction s with
  | nil => simp [scanStringBody]
  | cons c cs ih =>
    have hc := h c (by simp)
    have hcs : goodList cs := fun x hx => h x (by simp [hx])
    simp [scanStringBody, hc.1, hc.2, ih hcs]

theorem scanKeyVal_quoted (k val rest : List Char) (hk : goodList k) (hv : goodList val) :
    scanKeyVal (quoteChar ::
        (k ++ quoteChar :: ':' :: quoteChar :: (val ++ quoteChar :: rest)))
      = some (k, val, rest) := by
  simp [scanKeyVal, scanStringLit, scanStringBody_append _ _ hk,
    scanStringBody_append _ _ hv]

theorem parseObjRest_two (k1 v1 k2 v2 : List Char)
    (hk1 : goodList k1) (hv1 : goodList v1) (hk2 : goodList k2) (hv2 : goodList v2) :
    parseObjRest (quoteChar ::
        (k1 ++ quoteChar :: ':' :: quoteChar ::
          (v1 ++ quoteChar :: ',' :: quoteChar ::
            (k2 ++ quoteChar :: ':' :: quoteChar ::
              (v2 ++ quoteChar :: closeBrace :: [])))))
      = some (recordOfFields [(k1, v1), (k2, v2)]) := by
  have e1 := scanKeyVal_quoted k1 v1
    (',' :: quoteChar ::
      (k2 ++ quoteChar :: ':' :: quoteChar :: (v2 ++ quoteChar :: closeBrace :: [])))
    hk1 hv1
  have e2 := scanKeyVal_quoted k2 v2 (closeBrace :: []) hk2 hv2
  simp [parseObjRest, e1, e2, show quoteChar ≠ closeBrace from by decide,
    show (',' : Char) ≠ closeBrace from by decide]

theorem parseRecord_serializeMV (m v : String) (hm : goodChars m) (hv : goodChars v) :
    parseRecord (serializeModeVariant m v) = some ⟨some m, some v⟩ := by
  have h2 := parseObjRest_two "mode".data m.data "variant".data v.data
    (by decide) hm (by decide) hv
  show parseRecordList _ = _
  simp only [serializeModeVariant, string_mk_data]
  simp only [parseRecordList, if_pos rfl, h2]
  simp [recordOfFields, fieldLookup, show "variant".data ≠ "mode".data from by decide,
    string_mk_data]

theorem scanStringBody_good :
    ∀ l content rem, scanStringBody l = some (content, rem) → goodList content := by
  intro l
  induction l with
  | nil => intro content rem h; simp [scanStringBody] at h
  | cons c cs ih =>
    intro content rem h
    simp only [scanStringBody] at h
    split at h
    · rename_i h1
      simp at h
      rw [h.1]
      intro x hx
      simp at hx
    · rename_i h1
      split at h
      · simp at h
      · rename_i h2
        split at h
        · rename_i p1 p2 hs
          simp at h
          rw [← h.1]
          intro x hx
          rcases List.mem_cons.mp hx with hx | hx
          · exact hx ▸ ⟨h1, h2⟩
          · exact ih p1 p2 hs x hx
        · simp at h

theorem scanStringLit_good (l content rem : List Char)
    (h : scanStringLit l = some (content, rem)) : goodList content := by
  cases l with
  | nil => simp [scanStringLit] at h
  | cons c cs =>
    simp only [scanStringLit] at h
    split at h
    · exact scanStringBody_good cs content rem h
    · simp at h

theorem scanKeyVal_good (l k v r : List Char)
    (h : scanKeyVal l = some (k, v, r)) : goodList v := by
  unfold scanKeyVal at h
  split at h
  · simp at h
  · rename_i key r1
    split at h
    · simp at h
    · rename_i c r2
      split at h
      · split at h
        · rename_i val r3 hlit
          simp at h
          exact h.2.1 ▸ scanStringLit_good r2 val r3 hlit
        · simp at h
      · simp at h

theorem fieldLookup_good (key : List Char) (fs : List (List Char × List Char))
    (hfs : ∀ kv ∈ fs, goodList kv.2) :
    ∀ v, fieldLookup key fs = some v → goodList v := by
  induction fs with
  | nil => intro v h; simp [fieldLookup] at h
  | cons kv rest ih =>
    intro v h
    obtain ⟨k0, v0⟩ := kv
    unfold fieldLookup at h
    split at h
    · rename_i r hr
      simp at h
      exact h ▸ ih (fun x hx => hfs x (List.mem_cons_of_mem _ hx)) r hr
    · rename_i hr
      split at h
      · simp at h
        exact h ▸ hfs (k0, v0) (List.mem_cons_self _ _)
      · simp at h

theorem recordOfFields_good (fs : List (List Char × List Char))
    (hfs : ∀ kv ∈ fs, goodList kv.2) : goodRecord (recordOfFields fs) := by
  constructor
  · intro m hm
    unfold recordOfFields at hm
    simp only [Option.map_eq_some'] at hm
    obtain ⟨lc, hlc, hmk⟩ := hm
    have := fieldLookup_good _ fs hfs lc hlc
    rw [← hmk]
    exact this
  · intro v hv
    unfold recordOfFields at hv
    simp only [Option.map_eq_some'] at hv
    obtain ⟨lc, hlc, hmk⟩ := hv
    have := fieldLookup_good _ fs hfs lc hlc
    rw [← hmk]
    exact this

theorem parseObjRest_good (rest : List Char) (r : ThemeRecord)
    (h : parseObjRest rest = some r) : goodRecord r := by
  unfold parseObjRest at h
  split at h
  · simp at h
    subst h
    exact recordOfFields_good [] (by intro kv hkv; simp at hkv)
  · split at h
    · simp at h
    · rename_i k1 v1 r1 h1
      have hv1 : goodList v1 := scanKeyVal_good _ _ _ _ h1
      split at h
      · simp at h
        subst h
        refine recordOfFields_good [(k1, v1)] ?_
        intro kv hkv
        simp at hkv
        rw [hkv]
        exact hv1
      · split at h
        · simp at h
        · rename_i c rr
          split at h
          · split at h
            · simp at h
            · rename_i k2 v2 r2 h3
              have hv2 : goodList v2 := scanKeyVal_good _ _ _ _ h3
              split at h
              · simp at h
                subst h
                refine recordOfFields_good [(k1, v1), (k2, v2)] ?_
                intro kv hkv
                simp at hkv
                rcases hkv with hkv | hkv <;> rw [hkv]
                · exact hv1
                · exact hv2
              · simp at h
          · simp at h

theorem parseRecord_good (s : String) (r : ThemeRecord)
    (h : parseRecord s = some r) : goodRecord r := by
  unfold parseRecord at h
  cases hd : s.data with
  | nil => rw [hd] at h; simp [parseRecordList] at h
  | cons c rest =>
    rw [hd] at h
    simp only [parseRecordList] at h
    split at h
    · exact parseObjRest_good rest r h
    · simp at h

theorem strStartsWith_theme (x : String) :
    Provider1.strStartsWith ("theme-" ++ x) "theme-" = true := by
  simp only [Provider1.strStartsWith, String.data_append]
  rw [ List.isPrefixOf_iff_prefix]
  exact List.prefix_append _ _

theorem themeClass_startsWith (s : Provider1.State) :
    Provider1.strStartsWith (Provider1.themeClass s) "theme-" = true := by
  unfold Provider1.themeClass
  by_cases h : s.isDefault
  · simp [h]; decide
  · simp only [h, if_false, Bool.false_eq_true]
    have : "theme-" ++ s.mode ++ "-" ++ s.variant
        = "theme-" ++ (s.mode ++ "-" ++ s.variant) := by
      simp [String.append_assoc]
    rw [this]
    exact strStartsWith_theme _

theorem theme_mv_ne_default (m v : String) :
    "theme-" ++ m ++ "-" ++ v ≠ "theme-default" := by
  intro h
  have hd : ("theme-" ++ m ++ "-" ++ v).data = ("theme-default" : String).data := by
    rw [h]
  simp only [String.data_append] at hd
  have hcount := congrArg (fun l => l.count '-') hd
  simp only [List.count_append] at hcount
  have h1 : ("theme-" : String).data.count '-' = 1 := by decide
  have h2 : ("-" : String).data.count '-' = 1 := by decide
  have h3 : ("theme-default" : String).data.count '-' = 1 := by decide
  rw [h1, h2, h3] at hcount
  omega

theorem pickMode1_inv {r : Option ThemeRecord} {m : String}
    (h : Provider1.pickMode r = some m) :
    ∃ rec, r = some rec ∧ rec.mode = some m ∧ m ≠ "" ∧ m ≠ "default" := by
  unfold Provider1.pickMode at h
  split at h
  · simp at h
  · rename_i rec
    split at h
    · simp at h
    · rename_i m0 hm0
      split at h
      · simp at h
      · rename_i hcond
        simp at h
        push_neg at hcond
        exact ⟨rec, rfl, h ▸ hm0, h ▸ hcond.1, h ▸ hcond.2⟩

theorem pickVariant1_inv {r : Option ThemeRecord} {v : String}
    (h : Provider1.pickVariant r = some v) :
    ∃ rec, r = some rec ∧ rec.variant = some v ∧ v ≠ ""
      ∧ rec.mode ≠ some "default" := by
  unfold Provider1.pickVariant at h
  split at h
  · simp at h
  · rename_i rec
    split at h
    · simp at h
    · rename_i v0 hv0
      split at h
      · simp at h
      · rename_i h1
        split at h
        · simp at h
        · rename_i h2
          simp at h
          exact ⟨rec, rfl, h ▸ hv0, h ▸ h1, h2⟩

theorem pickMode2_inv {r : Option ThemeRecord} {m : String}
    (h : Provider2.pickMode r = some m) :
    ∃ rec, r = some rec ∧ rec.mode = some m ∧ m ≠ "" := by
  unfold Provider2.pickMode at h
  split at h
  · simp at h
  · rename_i rec
    split at h
    · simp at h
    · rename_i m0 hm0
      split at h
      · simp at h
      · rename_i hcond
        simp at h
        exact ⟨rec, rfl, h ▸ hm0, h ▸ hcond⟩

theorem readStored_inv {e : Env} {rec : ThemeRecord} (h : readStored e = some rec) :
    ∃ raw, e.storageRaw = some raw ∧ parseRecord raw = some rec := by
  unfold readStored at h
  split at h
  · rename_i raw hraw
    exact ⟨raw, hraw, h⟩
  · simp at h

theorem readCookie_inv {e : Env} {rec : ThemeRecord} (h : readCookie e = some rec) :
    ∃ raw, e.cookieRaw = some raw ∧ parseRecord raw = some rec := by
  unfold readCookie at h
  split at h
  · rename_i raw hraw
    exact ⟨raw, hraw, h⟩
  · simp at h

theorem goodRecord_readStored {e : Env} {rec : ThemeRecord}
    (h : readStored e = some rec) : goodRecord rec := by
  obtain ⟨raw, _, hp⟩ := readStored_inv h
  exact parseRecord_good _ _ hp

theorem goodRecord_readCookie {e : Env} {rec : ThemeRecord}
    (h : readCookie e = some rec) : goodRecord rec := by
  obtain ⟨raw, _, hp⟩ := readCookie_inv h
  exact parseRecord_good _ _ hp

theorem hourMode_cases (n : Nat) : hourMode n = "day" ∨ hourMode n = "night" := by
  unfold hourMode
  split
  · exact Or.inl rfl
  · exact Or.inr rfl

theorem initMode1_props (e : Env) :
    goodChars (Provider1.initMode e) ∧ Provider1.initMode e ≠ ""
      ∧ Provider1.initMode e ≠ "default" := by
  unfold Provider1.initMode
  cases hp : Provider1.pickMode (readStored e) with
  | some m =>
    obtain ⟨rec, hr, hm, h1, h2⟩ := pickMode1_inv hp
    exact ⟨(goodRecord_readStored hr).1 m hm, h1, h2⟩
  | none =>
    cases hpc : Provider1.pickMode (readCookie e) with
    | some m =>
      obtain ⟨rec, hr, hm, h1, h2⟩ := pickMode1_inv hpc
      exact ⟨(goodRecord_readCookie hr).1 m hm, h1, h2⟩
    | none =>
      show goodChars (hourMode e.hour) ∧ hourMode e.hour ≠ ""
        ∧ hourMode e.hour ≠ "default"
      rcases hourMode_cases e.hour with h | h <;> rw [h] <;> refine ⟨by decide, by decide, by decide⟩

theorem initVariant1_props (e : Env) :
    goodChars (Provider1.initVariant e) ∧ Provider1.initVariant e ≠ "" := by
  unfold Provider1.initVariant
  cases hp : Provider1.pickVariant (readStored e) with
  | some v =>
    obtain ⟨rec, hr, hv, h1, _⟩ := pickVariant1_inv hp
    exact ⟨(goodRecord_readStored hr).2 v hv, h1⟩
  | none =>
    cases hpc : Provider1.pickVariant (readCookie e) with
    | some v =>
      obtain ⟨rec, hr, hv, h1, _⟩ := pickVariant1_inv hpc
      exact ⟨(goodRecord_readCookie hr).2 v hv, h1⟩
    | none =>
      show goodChars (osVariant e.osDark) ∧ osVariant e.osDark ≠ ""
      unfold osVariant
      split
      · exact ⟨by decide, by decide⟩
      · exact ⟨by decide, by decide⟩

theorem goodState_initState (e : Env) : GoodState (Provider1.initState e) := by
  obtain ⟨g1, g2, g3⟩ := initMode1_props e
  obtain ⟨g4, g5⟩ := initVariant1_props e
  exact ⟨g1, g2, g3, g4, g5, by intro m v h; simp [Provider1.initState] at h⟩

theorem goodState_applyToggle (s : Provider1.State) (t : Toggle)
    (h : GoodState s) : GoodState (applyToggle s t) := by
  obtain ⟨g1, g2, g3, g4, g5, g6⟩ := h
  cases t with
  | tMode =>
    show GoodState (Provider1.toggleMode s)
    unfold Provider1.toggleMode
    split
    · exact ⟨g1, g2, g3, g4, g5, g6⟩
    · split
      · exact ⟨show goodChars "night" by decide, show ("night" : String) ≠ "" by decide,
          show ("night" : String) ≠ "default" by decide, g4, g5, g6⟩
      · exact ⟨show goodChars "day" by decide, show ("day" : String) ≠ "" by decide,
          show ("day" : String) ≠ "default" by decide, g4, g5, g6⟩
  | tVariant =>
    show GoodState (Provider1.toggleVariant s)
    unfold Provider1.toggleVariant
    split
    · exact ⟨g1, g2, g3, g4, g5, g6⟩
    · split
      · exact ⟨g1, g2, g3, show goodChars "dark" by decide,
          show ("dark" : String) ≠ "" by decide, g6⟩
      · exact ⟨g1, g2, g3, show goodChars "light" by decide,
          show ("light" : String) ≠ "" by decide, g6⟩
  | tDefault =>
    show GoodState (Provider1.toggleDefault s)
    unfold Provider1.toggleDefault
    split
    · refine ⟨g1, g2, g3, g4, g5, ?_⟩
      intro m v hmv
      simp at hmv
      exact ⟨hmv.1 ▸ g1, hmv.1 ▸ g2, hmv.1 ▸ g3, hmv.2 ▸ g4, hmv.2 ▸ g5⟩
    · split
      · rename_i m v hprev
        obtain ⟨p1, p2, p3, p4, p5⟩ := g6 m v hprev
        exact ⟨p1, p2, p3, p4, p5, by intro a b hab; simp at hab⟩
      · exact ⟨g1, g2, g3, g4, g5, g6⟩

theorem goodState_runToggles (s : Provider1.State) (ts : List Toggle)
    (h : GoodState s) : GoodState (runToggles s ts) := by
  induction ts generalizing s with
  | nil => exact h
  | cons t ts ih => exact ih _ (goodState_applyToggle s t h)

theorem initMode1_stored (e : Env) (rec : ThemeRecord) (m : String)
    (hs : readStored e = some rec) (hm : rec.mode = some m)
    (h1 : m ≠ "") (h2 : m ≠ "default") : Provider1.initMode e = m := by
  simp [Provider1.initMode, hs, Provider1.pickMode, hm, h1, h2]

theorem initVariant1_stored (e : Env) (rec : ThemeRecord) (v : String)
    (hs : readStored e = some rec) (hv : rec.variant = some v)
    (h1 : v ≠ "") (h2 : rec.mode ≠ some "default") :
    Provider1.initVariant e = v := by
  simp [Provider1.initVariant, hs, Provider1.pickVariant, hv, h1, h2]

theorem initIsDefault1_false (e : Env) (rec1 rec2 : ThemeRecord)
    (hs : readStored e = some rec1) (hc : readCookie e = some rec2)
    (hm1 : rec1.mode ≠ some "default") (hm2 : rec2.mode ≠ some "default")
    (hcls : e.rootClasses.contains "theme-default" = false) :
    Provider1.initIsDefault e = false := by
  simp [Provider1.initIsDefault, hs, hc, hm1, hm2]
  simpa using hcls

theorem run_serializedMV (m v : String) (hm : goodChars m) (hv : goodChars v)
    (h1 : m ≠ "") (h2 : v ≠ "") (storageRaw : Option String) :
    Prehydration.run [] (some (serializeModeVariant m v)) storageRaw
      = ["theme-" ++ m ++ "-" ++ v] := by
  simp [Prehydration.run, Prehydration.cookieClass,
    parseRecord_serializeMV m v hm hv, h1, h2]

theorem contains_single_ne {a b : String} (h : a ≠ b) :
    ([a] : List String).contains b = false := by
  simp [List.contains]
  exact fun hc => h hc.symm

theorem reload_nondefault (s : Provider1.State) (hG : GoodState s)
    (hd : s.isDefault = false) (o : Option Bool) (hr : Nat) :
    (Provider1.initState (reloadEnv s o hr)).mode = s.mode
    ∧ (Provider1.initState (reloadEnv s o hr)).variant = s.variant
    ∧ (Provider1.initState (reloadEnv s o hr)).isDefault = false := by
  obtain ⟨g1, g2, g3, g4, g5, _⟩ := hG
  have hpay : Provider1.persistPayload s = serializeModeVariant s.mode s.variant := by
    unfold Provider1.persistPayload
    rw [hd]
    simp
  have hparse : parseRecord (Provider1.persistPayload s)
      = some ⟨some s.mode, some s.variant⟩ := by
    rw [hpay]
    exact parseRecord_serializeMV _ _ g1 g4
  have hrs : readStored (reloadEnv s o hr) = some ⟨some s.mode, some s.variant⟩ := hparse
  have hrc : readCookie (reloadEnv s o hr) = some ⟨some s.mode, some s.variant⟩ := hparse
  have hmne : (⟨some s.mode, some s.variant⟩ : ThemeRecord).mode ≠ some "default" := by
    simp
    exact g3
  have hcls : (reloadEnv s o hr).rootClasses.contains "theme-default" = false := by
    show (Prehydration.run [] (some (Provider1.persistPayload s))
      (some (Provider1.persistPayload s))).contains "theme-default" = false
    rw [hpay, run_serializedMV _ _ g1 g4 g2 g5]
    exact contains_single_ne (theme_mv_ne_default _ _)
  refine ⟨?_, ?_, ?_⟩
  · exact initMode1_stored _ _ _ hrs rfl g2 g3
  · exact initVariant1_stored _ _ _ hrs rfl g5 hmne
  · exact initIsDefault1_false _ _ _ hrs hrc hmne hmne hcls

theorem reload_default (s : Provider1.State) (hd : s.isDefault = true)
    (o : Option Bool) (hr : Nat) :
    (Provider1.initState (reloadEnv s o hr)).isDefault = true := by
  have hpay : Provider1.persistPayload s = serializeDefault := by
    unfold Provider1.persistPayload
    rw [hd]
    simp
  have hparse : parseRecord (Provider1.persistPayload s)
      = some ⟨some "default", none⟩ := by
    rw [hpay]
    decide
  have hrs : readStored (reloadEnv s o hr) = some ⟨some "default", none⟩ := hparse
  show Provider1.initIsDefault (reloadEnv s o hr) = true
  simp [Provider1.initIsDefault, hrs]

theorem initMode2_stored (e : Env) (rec : ThemeRecord) (m : String)
    (hs : readStored e = some rec) (hm : rec.mode = some m) (h1 : m ≠ "") :
    Provider2.initMode e = m := by
  simp [Provider2.initMode, hs, Provider2.pickMode, hm, h1]

theorem initVariant2_stored (e : Env) (rec : ThemeRecord) (v : String)
    (hs : readStored e = some rec) (hv : rec.variant = some v) (h1 : v ≠ "") :
    Provider2.initVariant e = v := by
  simp [Provider2.initVariant, hs, Provider2.pickVariant, hv, h1]

theorem cookieClass_shape (c : Option String) (x : String)
    (h : Prehydration.cookieClass c = some x) :
    ∃ m v, x = "theme-" ++ m ++ "-" ++ v := by
  unfold Prehydration.cookieClass at h
  split at h
  · simp at h
  · split at h
    · simp at h
    · rename_i r hp
      split at h
      · rename_i m v hm hv
        split at h
        · simp at h
          exact ⟨m, v, h.symm⟩
        · simp at h
      · simp at h

theorem storageClass_shape (sr : Option String) (x : String)
    (h : Prehydration.storageClass sr = some x) :
    (∃ m v, x = "theme-" ++ m ++ "-" ++ v) ∨ x = "theme-default" := by
  unfold Prehydration.storageClass at h
  split at h
  · simp at h
  · split at h
    · simp at h
    · rename_i r hp
      split at h
      · simp at h
        exact Or.inr h.symm
      · split at h
        · rename_i m v hm hv
          split at h
          · simp at h
            exact Or.inl ⟨m, v, h.symm⟩
          · simp at h
        · simp at h

theorem filter_not_theme (classes : List String) :
    (classes.filter (fun c => !(Provider1.strStartsWith c "theme-"))).filter
      (fun c => Provider1.strStartsWith c "theme-") = [] := by
  induction classes with
  | nil => rfl
  | cons c cs ih =>
    by_cases hc : Provider1.strStartsWith c "theme-"
    · simp [List.filter, hc, ih]
    · simp [List.filter, hc, ih]

theorem theme_mv_assoc (m v : String) :
    "theme-" ++ m ++ "-" ++ v = "theme-" ++ (m ++ "-" ++ v) := by
  simp [String.append_assoc]

theorem applyClass1_filter (s : Provider1.State) (classes : List String) :
    (Provider1.applyClass s classes).filter
      (fun c => Provider1.strStartsWith c "theme-") = [Provider1.themeClass s] := by
  unfold Provider1.applyClass
  rw [List.filter_append, filter_not_theme]
  simp [themeClass_startsWith s]

theorem applyClass2_filter (m v : String) (classes : List String) :
    (Provider2.applyClass m v classes).filter
      (fun c => Provider1.strStartsWith c "theme-") = ["theme-" ++ m ++ "-" ++ v] := by
  unfold Provider2.applyClass
  rw [List.filter_append, filter_not_theme]
  have hsw : Provider1.strStartsWith ("theme-" ++ m ++ "-" ++ v) "theme-" = true := by
    rw [theme_mv_assoc]
    exact strStartsWith_theme _
  simp [hsw]


/-- C1: the claim says both the pre-hydration resolver and the
controller mount-time initializers consult the cookie before storage, so
the cookie record wins. Refuted at a concrete input: with a valid
night/dark storage record and a valid day/light cookie record, the
pre-hydration class follows the cookie, but the mounted mode and variant
follow the storage record, in both ThemeProvider variants. -/
theorem claim1_counterexample :
    readStored claim1Env = some ⟨some "night", some "dark"⟩
    ∧ readCookie claim1Env = some ⟨some "day", some "light"⟩
    ∧ Prehydration.run [] claim1Env.cookieRaw claim1Env.storageRaw = ["theme-day-light"]
    ∧ Provider1.initMode claim1Env = "night"
    ∧ Provider1.initMode claim1Env ≠ "day"
    ∧ Provider1.initVariant claim1Env = "dark"
    ∧ Provider2.initMode claim1Env = "night"
    ∧ Provider2.initVariant claim1Env = "dark" := by decide

/-- C1 (amended): the pre-hydration resolver consults the cookie first:
a valid mode/variant cookie record determines its class; but the
controller mount-time initializers of both ThemeProvider variants
consult storage first: when storage and cookie both hold valid records,
the storage record determines the mounted mode and variant. -/
theorem claim1_theorem :
    (∀ raw storageRaw m v, parseRecord raw = some ⟨some m, some v⟩ → m ≠ "" → v ≠ "" →
      Prehydration.run [] (some raw) storageRaw = ["theme-" ++ m ++ "-" ++ v])
    ∧ (∀ e m v m2 v2, readStored e = some ⟨some m, some v⟩ →
        readCookie e = some ⟨some m2, some v2⟩ → m ≠ "" → m ≠ "default" → v ≠ "" →
        Provider1.initMode e = m ∧ Provider1.initVariant e = v
        ∧ Provider2.initMode e = m ∧ Provider2.initVariant e = v) := by
  constructor
  · intro raw storageRaw m v hp hm hv
    simp [Prehydration.run, Prehydration.cookieClass, hp, hm, hv]
  · intro e m v m2 v2 hs hc hm hmd hv
    refine ⟨?_, ?_, ?_, ?_⟩
    · exact initMode1_stored e _ m hs rfl hm hmd
    · refine initVariant1_stored e _ v hs rfl hv ?_
      simp [hmd]
    · exact initMode2_stored e _ m hs rfl hm
    · exact initVariant2_stored e _ v hs rfl hv

/-- C1 witness: the amended theorem applied to the concrete disagreeing
records of `claim1Env`. -/
theorem claim1_witness :
    Provider1.initMode claim1Env = "night"
    ∧ Provider1.initVariant claim1Env = "dark" := by
  have h := claim1_theorem.2 claim1Env "night" "dark" "day" "light"
    (by decide) (by decide) (by decide) (by decide) (by decide)
  exact ⟨h.1, h.2.1⟩

/-- C2: the claim says an empty cookie and storage yield
`theme-night-dark` (OS dark, hour 3) resp. `theme-day-light` (OS
unavailable, hour 10) as the resulting root class. On the current site
(layout.tsx script plus the part_001 provider) the pre-hydration script
falls back to `theme-default`, the mounted controller adopts it, and the
resulting root class is `theme-default`, not the derived class. -/
theorem claim2_counterexample :
    pageLoad none none (some true) 3 = ["theme-default"]
    ∧ pageLoad none none (some true) 3 ≠ ["theme-night-dark"]
    ∧ pageLoad none none none 10 = ["theme-default"]
    ∧ pageLoad none none none 10 ≠ ["theme-day-light"] := by decide

/-- C2 (amended): with empty cookie and storage the controller
initializers alone derive night/dark from OS-dark and hour 3 (day/light
from an unavailable OS signal and hour 10), and applying the controller
class on a bare root yields `theme-night-dark` resp. `theme-day-light`;
but the pre-hydration resolver falls back to `theme-default`, and on a
full page load of the current site the controller adopts that class, so
the resulting root class is `theme-default` in both scenarios. -/
theorem claim2_theorem :
    Provider1.initMode ⟨none, none, some true, 3, []⟩ = "night"
    ∧ Provider1.initVariant ⟨none, none, some true, 3, []⟩ = "dark"
    ∧ Provider1.applyClass (Provider1.initState ⟨none, none, some true, 3, []⟩) []
        = ["theme-night-dark"]
    ∧ Provider2.initMode ⟨none, none, some true, 3, []⟩ = "night"
    ∧ Provider2.initVariant ⟨none, none, some true, 3, []⟩ = "dark"
    ∧ Provider2.applyClass "night" "dark" [] = ["theme-night-dark"]
    ∧ Provider1.initMode ⟨none, none, none, 10, []⟩ = "day"
    ∧ Provider1.initVariant ⟨none, none, none, 10, []⟩ = "light"
    ∧ Provider1.applyClass (Provider1.initState ⟨none, none, none, 10, []⟩) []
        = ["theme-day-light"]
    ∧ Prehydration.run [] none none = ["theme-default"]
    ∧ pageLoad none none (some true) 3 = ["theme-default"]
    ∧ pageLoad none none none 10 = ["theme-default"] := by decide

/-- C3: starting from an empty root the pre-hydration resolver always
leaves exactly one class, of the form `theme-<m>-<v>` or
`theme-default`; after every controller state change `applyClass` (both
variants) removes every previously present `theme-` class and leaves
exactly the single class for the current state; and for every valid
stored record, held identically by cookie and storage, both the resolver
and the mounted controller produce the single class matching that
record. -/
theorem claim3_theorem :
    (∀ cookieRaw storageRaw, ∃ cls,
      Prehydration.run [] cookieRaw storageRaw = [cls]
      ∧ ((∃ m v, cls = "theme-" ++ m ++ "-" ++ v) ∨ cls = "theme-default"))
    ∧ (∀ s classes, (Provider1.applyClass s classes).filter
        (fun c => Provider1.strStartsWith c "theme-") = [Provider1.themeClass s])
    ∧ (∀ m v classes, (Provider2.applyClass m v classes).filter
        (fun c => Provider1.strStartsWith c "theme-") = ["theme-" ++ m ++ "-" ++ v])
    ∧ (∀ raw o n m v, parseRecord raw = some ⟨some m, some v⟩ →
        m ≠ "" → v ≠ "" → m ≠ "default" →
        Prehydration.run [] (some raw) (some raw) = ["theme-" ++ m ++ "-" ++ v]
        ∧ Provider1.themeClass (Provider1.initState ⟨some raw, some raw, o, n, []⟩)
            = "theme-" ++ m ++ "-" ++ v)
    ∧ (∀ raw o n, parseRecord raw = some ⟨some "default", none⟩ →
        Prehydration.run [] (some raw) (some raw) = ["theme-default"]
        ∧ Provider1.themeClass (Provider1.initState ⟨some raw, some raw, o, n, []⟩)
            = "theme-default") := by
  refine ⟨?_, applyClass1_filter, applyClass2_filter, ?_, ?_⟩
  · intro c s
    cases hc : Prehydration.cookieClass c with
    | some x =>
      exact ⟨x, by simp [Prehydration.run, hc], Or.inl (cookieClass_shape c x hc)⟩
    | none =>
      cases hs : Prehydration.storageClass s with
      | some x =>
        exact ⟨x, by simp [Prehydration.run, hc, hs], storageClass_shape s x hs⟩
      | none =>
        exact ⟨"theme-default", by simp [Prehydration.run, hc, hs], Or.inr rfl⟩
  · intro raw o n m v hp hm hv hmd
    have hrs : readStored ⟨some raw, some raw, o, n, []⟩
        = some ⟨some m, some v⟩ := hp
    have hrc : readCookie ⟨some raw, some raw, o, n, []⟩
        = some ⟨some m, some v⟩ := hp
    have hmne : (⟨some m, some v⟩ : ThemeRecord).mode ≠ some "default" := by
      simp [hmd]
    constructor
    · simp [Prehydration.run, Prehydration.cookieClass, hp, hm, hv]
    · have hdf : Provider1.initIsDefault ⟨some raw, some raw, o, n, []⟩ = false :=
        initIsDefault1_false _ _ _ hrs hrc hmne hmne (by simp)
      have h1 : Provider1.initMode ⟨some raw, some raw, o, n, []⟩ = m :=
        initMode1_stored _ _ m hrs rfl hm hmd
      have h2 : Provider1.initVariant ⟨some raw, some raw, o, n, []⟩ = v :=
        initVariant1_stored _ _ v hrs rfl hv hmne
      show Provider1.themeClass
        ⟨Provider1.initMode _, Provider1.initVariant _, Provider1.initIsDefault _, none⟩ = _
      simp [Provider1.themeClass, hdf, h1, h2]
  · intro raw o n hp
    have hrs : readStored ⟨some raw, some raw, o, n, []⟩
        = some ⟨some "default", none⟩ := hp
    constructor
    · have hck : Prehydration.cookieClass (some raw) = none := by
        simp [Prehydration.cookieClass, hp]
      have hst : Prehydration.storageClass (some raw) = some "theme-default" := by
        simp [Prehydration.storageClass, hp]
      simp [Prehydration.run, hck, hst]
    · have hdf : Provider1.initIsDefault ⟨some raw, some raw, o, n, []⟩ = true := by
        simp [Provider1.initIsDefault, hrs]
      show Provider1.themeClass
        ⟨Provider1.initMode _, Provider1.initVariant _, Provider1.initIsDefault _, none⟩ = _
      simp [Provider1.themeClass, hdf]

/-- C3 witness: the record-matching part applied to the concrete
night/dark record. -/
theorem claim3_witness :
    Prehydration.run [] (some (serializeModeVariant "night" "dark"))
      (some (serializeModeVariant "night" "dark")) = ["theme-night-dark"] := by
  have h := claim3_theorem.2.2.2.1 (serializeModeVariant "night" "dark") none 0
    "night" "dark" (by decide) (by decide) (by decide) (by decide)
  exact h.1.trans (by decide)

/-- C4: for every state reached from a mount by a sequence of toggle
clicks, persisting it and re-resolving from the persisted cookie and
storage alone (a reload: the pre-hydration script runs on the persisted
values, then the controller mounts) reproduces the same mode and
variant with `isDefault` false, or reproduces the default state when
`isDefault` was true. -/
theorem claim4_theorem (e : Env) (ts : List Toggle) (o : Option Bool) (n : Nat) :
    ((runToggles (Provider1.initState e) ts).isDefault = false →
      (Provider1.initState (reloadEnv (runToggles (Provider1.initState e) ts) o n)).mode
        = (runToggles (Provider1.initState e) ts).mode
      ∧ (Provider1.initState (reloadEnv (runToggles (Provider1.initState e) ts) o n)).variant
        = (runToggles (Provider1.initState e) ts).variant
      ∧ (Provider1.initState (reloadEnv (runToggles (Provider1.initState e) ts) o n)).isDefault
        = false)
    ∧ ((runToggles (Provider1.initState e) ts).isDefault = true →
      (Provider1.initState (reloadEnv (runToggles (Provider1.initState e) ts) o n)).isDefault
        = true) := by
  have hG := goodState_runToggles (Provider1.initState e) ts (goodState_initState e)
  exact ⟨fun hd => reload_nondefault _ hG hd o n, fun hd => reload_default _ hd o n⟩

/-- C4 witness: a mount at hour 10 with no persisted data (day/light)
followed by one mode toggle gives night/light; the reload at hour 3
reproduces night/light. -/
theorem claim4_witness :
    (Provider1.initState (reloadEnv
        (runToggles (Provider1.initState ⟨none, none, none, 10, []⟩) [Toggle.tMode])
        none 3)).mode = "night"
    ∧ (Provider1.initState (reloadEnv
        (runToggles (Provider1.initState ⟨none, none, none, 10, []⟩) [Toggle.tMode])
        none 3)).variant = "light" := by
  have h := (claim4_theorem ⟨none, none, none, 10, []⟩ [Toggle.tMode] none 3).1 (by decide)
  exact ⟨h.1.trans (by decide), h.2.1.trans (by decide)⟩

/-- C5: from a non-default state, `toggleDefault` snapshots the current
mode/variant into `prevRef` and sets `isDefault`; a second
`toggleDefault` restores exactly the snapshotted mode/variant and
clears `isDefault`; and leaving default with no snapshot present leaves
mode and variant unchanged. -/
theorem claim5_theorem (s : Provider1.State) :
    (s.isDefault = false →
      Provider1.toggleDefault s
        = { s with prevRef := some (s.mode, s.variant), isDefault := true }
      ∧ (Provider1.toggleDefault (Provider1.toggleDefault s)).mode = s.mode
      ∧ (Provider1.toggleDefault (Provider1.toggleDefault s)).variant = s.variant
      ∧ (Provider1.toggleDefault (Provider1.toggleDefault s)).isDefault = false)
    ∧ (s.isDefault = true → s.prevRef = none →
      Provider1.toggleDefault s = { s with isDefault := false }) := by
  constructor
  · intro h
    have h1 : Provider1.toggleDefault s
        = { s with prevRef := some (s.mode, s.variant), isDefault := true } := by
      unfold Provider1.toggleDefault
      rw [h]
      simp
    refine ⟨h1, ?_, ?_, ?_⟩ <;> rw [h1] <;> simp [Provider1.toggleDefault]
  · intro h hp
    unfold Provider1.toggleDefault
    rw [h, hp]
    simp

/-- C5 witness: entering default from night/dark and undoing restores
exactly night/dark. -/
theorem claim5_witness :
    (Provider1.toggleDefault (Provider1.toggleDefault
      ⟨"night", "dark", false, none⟩)).mode = "night"
    ∧ (Provider1.toggleDefault (Provider1.toggleDefault
      ⟨"night", "dark", false, none⟩)).variant = "dark"
    ∧ (Provider1.toggleDefault (Provider1.toggleDefault
      ⟨"night", "dark", false, none⟩)).isDefault = false := by
  have h := ( claim5_theorem ⟨"night", "dark", false, none⟩).1 rfl
  exact ⟨h.2.1, h.2.2.1, h.2.2.2⟩

/-- C6: while `isDefault` is true, `toggleMode` and `toggleVariant` are
no-ops on the whole state. -/
theorem claim6_theorem (s : Provider1.State) (h : s.isDefault = true) :
    Provider1.toggleMode s = s ∧ Provider1.toggleVariant s = s := by
  unfold Provider1.toggleMode Provider1.toggleVariant
  rw [h]
  simp

/-- C6 witness: the no-op at a concrete default state. -/
theorem claim6_witness :
    Provider1.toggleMode ⟨"day", "light", true, none⟩ = ⟨"day", "light", true, none⟩
    ∧ Provider1.toggleVariant ⟨"day", "light", true, none⟩
      = ⟨"day", "light", true, none⟩ :=
  claim6_theorem ⟨"day", "light", true, none⟩ rfl

/-- C7: the claim says a cookie whose record has `mode === 'default'`
(and no variant) makes the pre-hydration resolver apply `theme-default`
at the cookie step and stop. Refuted at a concrete input: with such a
cookie and a night/dark storage record, the resolver falls through to
storage and applies `theme-night-dark`. -/
theorem claim7_counterexample :
    parseRecord serializeDefault = some ⟨some "default", none⟩
    ∧ Prehydration.run [] (some serializeDefault)
        (some (serializeModeVariant "night" "dark")) = ["theme-night-dark"]
    ∧ Prehydration.run [] (some serializeDefault)
        (some (serializeModeVariant "night" "dark")) ≠ ["theme-default"] := by decide

/-- C7 (amended): the resolver's cookie branch requires both fields, so
a `mode === 'default'` cookie record is ignored there — the resolver
behaves exactly as if the cookie were absent — and the default record is
only recognized at the storage step, or by the final `theme-default`
fallback. -/
theorem claim7_theorem :
    (∀ storageRaw, Prehydration.run [] (some serializeDefault) storageRaw
      = Prehydration.run [] none storageRaw)
    ∧ Prehydration.run [] (some serializeDefault) (some serializeDefault)
      = ["theme-default"]
    ∧ Prehydration.run [] (some serializeDefault) none = ["theme-default"] := by
  refine ⟨?_, by decide, by decide⟩
  intro storageRaw
  have h : Prehydration.cookieClass (some serializeDefault) = none := by decide
  simp only [Prehydration.run, h, show Prehydration.cookieClass none = none from rfl]

/-- C8: the claim says the pre-hydration class never influences the
controller's initial state. Refuted at a concrete input: two mounts
with identical storage, cookie, OS and hour inputs, differing only in
whether the root already carries `theme-default`, produce different
initial `isDefault` values (part_001 reads the root class list in the
`isDefault` initializer). -/
theorem claim8_counterexample :
    claim8EnvBare.storageRaw = claim8EnvClassed.storageRaw
    ∧ claim8EnvBare.cookieRaw = claim8EnvClassed.cookieRaw
    ∧ claim8EnvBare.osDark = claim8EnvClassed.osDark
    ∧ claim8EnvBare.hour = claim8EnvClassed.hour
    ∧ Provider1.initIsDefault claim8EnvBare = false
    ∧ Provider1.initIsDefault claim8EnvClassed = true := by decide

/-- C8 (amended): the initial mode and variant are determined solely by
storage, cookie and OS/time — the root class list is irrelevant to them
— but the initial `isDefault` additionally respects a pre-hydration
`theme-default` class: it is the persisted-default check disjoined with
membership of `theme-default` in the root class list. -/
theorem claim8_theorem (sr cr : Option String) (o : Option Bool) (n : Nat)
    (cls cls2 : List String) :
    Provider1.initMode ⟨sr, cr, o, n, cls⟩ = Provider1.initMode ⟨sr, cr, o, n, cls2⟩
    ∧ Provider1.initVariant ⟨sr, cr, o, n, cls⟩
      = Provider1.initVariant ⟨sr, cr, o, n, cls2⟩
    ∧ Provider1.initIsDefault ⟨sr, cr, o, n, cls⟩
      = (Provider1.initIsDefault ⟨sr, cr, o, n, []⟩ || cls.contains "theme-default") := by
  refine ⟨rfl, rfl, ?_⟩
  simp [Provider1.initIsDefault, readStored, readCookie, Bool.or_assoc]

/-- C9: a cookie or storage value that fails to parse is treated by
every consumer exactly as an absent value: the controller initializers
of both provider variants and both branches of the pre-hydration
resolver produce the same result as with that source missing, falling
through to the next resolution step; all the modelled readers are total
functions, so no failure escapes them. -/
theorem claim9_theorem (raw : String) (hraw : parseRecord raw = none) :
    (∀ cr o n cls,
      Provider1.initMode ⟨some raw, cr, o, n, cls⟩
        = Provider1.initMode ⟨none, cr, o, n, cls⟩
      ∧ Provider1.initVariant ⟨some raw, cr, o, n, cls⟩
        = Provider1.initVariant ⟨none, cr, o, n, cls⟩
      ∧ Provider1.initIsDefault ⟨some raw, cr, o, n, cls⟩
        = Provider1.initIsDefault ⟨none, cr, o, n, cls⟩)
    ∧ (∀ sr o n cls,
      Provider1.initMode ⟨sr, some raw, o, n, cls⟩
        = Provider1.initMode ⟨sr, none, o, n, cls⟩
      ∧ Provider1.initVariant ⟨sr, some raw, o, n, cls⟩
        = Provider1.initVariant ⟨sr, none, o, n, cls⟩
      ∧ Provider1.initIsDefault ⟨sr, some raw, o, n, cls⟩
        = Provider1.initIsDefault ⟨sr, none, o, n, cls⟩)
    ∧ (∀ cr o n cls,
      Provider2.initMode ⟨some raw, cr, o, n, cls⟩
        = Provider2.initMode ⟨none, cr, o, n, cls⟩
      ∧ Provider2.initVariant ⟨some raw, cr, o, n, cls⟩
        = Provider2.initVariant ⟨none, cr, o, n, cls⟩)
    ∧ (∀ storageRaw, Prehydration.run [] (some raw) storageRaw
        = Prehydration.run [] none storageRaw)
    ∧ (∀ cookieRaw, Prehydration.run [] cookieRaw (some raw)
        = Prehydration.run [] cookieRaw none) := by
  refine ⟨?_, ?_, ?_, ?_, ?_⟩
  · intro cr o n cls
    refine ⟨?_, ?_, ?_⟩
    · simp [Provider1.initMode, readStored, readCookie, hraw]
    · simp [Provider1.initVariant, readStored, readCookie, hraw]
    · simp [Provider1.initIsDefault, readStored, readCookie, hraw]
  · intro sr o n cls
    refine ⟨?_, ?_, ?_⟩
    · simp [Provider1.initMode, readStored, readCookie, hraw]
    · simp [Provider1.initVariant, readStored, readCookie, hraw]
    · simp [Provider1.initIsDefault, readStored, readCookie, hraw]
  · intro cr o n cls
    constructor
    · simp [Provider2.initMode, readStored, readCookie, hraw]
    · simp [Provider2.initVariant, readStored, readCookie, hraw]
  · intro storageRaw
    have h : Prehydration.cookieClass (some raw) = none := by
      simp [Prehydration.cookieClass, hraw]
    simp only [Prehydration.run, h, show Prehydration.cookieClass none = none from rfl]
  · intro cookieRaw
    have h : Prehydration.storageClass (some raw) = none := by
      simp [Prehydration.storageClass, hraw]
    simp only [Prehydration.run, h, show Prehydration.storageClass none = none from rfl]

/-- C9 witness: the fall-through at a concrete malformed value. -/
theorem claim9_witness :
    Provider1.initMode ⟨some "not json", none, none, 3, []⟩
      = Provider1.initMode ⟨none, none, none, 3, []⟩ := by
  have h := claim9_theorem "not json" (by decide)
  exact (h.1 none none 3 []).1

/-- C10: a storage record with truthy mode and variant strings outside
the documented enumerations is adopted verbatim by the part_002
controller (and by the part_001 controller whenever the mode is not the
reserved word `default` and nothing else forces the default theme), and
the class applied to a bare root is `theme-<m>-<v>`, a name the CSS
contract does not include for such values. -/
theorem claim10_theorem (e : Env) (m v : String)
    (hs : readStored e = some ⟨some m, some v⟩) (hm : m ≠ "") (hv : v ≠ "") :
    Provider2.initMode e = m ∧ Provider2.initVariant e = v
    ∧ Provider2.applyClass (Provider2.initMode e) (Provider2.initVariant e) []
        = ["theme-" ++ m ++ "-" ++ v]
    ∧ (m ≠ "default" →
        Provider1.initMode e = m ∧ Provider1.initVariant e = v
        ∧ (Provider1.initIsDefault e = false →
            Provider1.themeClass (Provider1.initState e) = "theme-" ++ m ++ "-" ++ v)) := by
  have h1 : Provider2.initMode e = m := initMode2_stored e _ m hs rfl hm
  have h2 : Provider2.initVariant e = v := initVariant2_stored e _ v hs rfl hv
  refine ⟨h1, h2, ?_, ?_⟩
  · rw [h1, h2]
    rfl
  · intro hmd
    have hmne : (⟨some m, some v⟩ : ThemeRecord).mode ≠ some "default" := by
      simp [hmd]
    have h3 : Provider1.initMode e = m := initMode1_stored e _ m hs rfl hm hmd
    have h4 : Provider1.initVariant e = v := initVariant1_stored e _ v hs rfl hv hmne
    refine ⟨h3, h4, ?_⟩
    intro hdf
    show Provider1.themeClass
      ⟨Provider1.initMode _, Provider1.initVariant _, Provider1.initIsDefault _, none⟩ = _
    simp [Provider1.themeClass, hdf, h3, h4]

/-- C10 witness: the concrete record x/y is adopted verbatim and yields
the root class theme-x-y, which is outside the five contract names. -/
theorem claim10_witness :
    Provider2.initMode claim10Env = "x" ∧ Provider2.initVariant claim10Env = "y"
    ∧ Provider2.applyClass (Provider2.initMode claim10Env)
        (Provider2.initVariant claim10Env) [] = ["theme-x-y"]
    ∧ Provider1.themeClass (Provider1.initState claim10Env) = "theme-x-y"
    ∧ cssContract.contains "theme-x-y" = false := by
  have h := claim10_theorem claim10Env "x" "y" (by decide) (by decide) (by decide)
  have h5 := h.2.2.2 (by decide)
  refine ⟨h.1, h.2.1, h.2.2.1.trans (by decide), ?_, by decide⟩
  exact (h5.2.2 (by decide)).trans (by decide)
